import Mathlib

/-!
Verification development for the libc_pointcloud repository.

The repository has two batch stages:
 * `wa_metadata.py` — the Metadata Linker: discovers `.laz` files, matches
   each vector-dataset record to a discovered file by filename-prefix,
   filters unmatched records and persists three artifacts;
 * `wb_laz2tif.py` — the Raster Converter: for each metadata row, builds a
   PDAL filter pipeline and writes a GeoTIFF, skipping existing outputs,
   dispatched over a process pool.

Strings are embedded as `List Char` (Python `str`), file systems as lists of
existing paths, and the PDAL pipeline as a list of stage descriptors.
Exceptions are embedded with `Except`, with oracles selecting which external
operation raises.
-/

/-- The characters of a string literal (Python `str` values are embedded as
`List Char`). -/
def chars (s : String) : List Char := s.data

/-- Embedding of Python `os.path.basename`: the text after the last slash. -/
def pyBasename (p : List Char) : List Char :=
  ((p.reverse.takeWhile (fun c => c ≠ '/')).reverse)

/-- Embedding of Python `s.split(pat)[0]` for a nonempty `pat`: the part of
`s` before the first occurrence of `pat` (all of `s` when `pat` never
occurs). -/
def beforeFirst (pat : List Char) : List Char → List Char
  | [] => []
  | c :: rest =>
    if pat.isPrefixOf (c :: rest) = true then [] else c :: beforeFirst pat rest

/-- The `for` loop of `find_closest_match_datafile` (src/wa_metadata.py
lines 12-16): the first full path whose basename starts with `base`. -/
def findFirstMatch (base : List Char) : List (List Char) → Option (List Char)
  | [] => none
  | fullpath :: rest =>
    if base.isPrefixOf (pyBasename fullpath) = true then some fullpath
    else findFirstMatch base rest

/-- The base extracted from a record's datafile field
(src/wa_metadata.py line 11): `os.path.basename(datafile).split('_dn_')[0]`. -/
def matchBase (datafile : List Char) : List Char :=
  beforeFirst (chars "_dn_") (pyBasename datafile)

/-- Embedding of `find_closest_match_datafile` (src/wa_metadata.py
lines 9-16). -/
def find_closest_match_datafile (datafile : List Char)
    (basenames : List (List Char)) : Option (List Char) :=
  findFirstMatch (matchBase datafile) basenames

/-- One row of the input vector dataset (a Source Record), restricted to the
columns the scripts use.  Geometry is an optional planar point; attribute
columns are raw strings. -/
structure SrcRecord where
  id : List Char
  transect : List Char
  datafile : List Char
  epsg : List Char
  random : List Char
  geometry : Option (Int × Int)
deriving DecidableEq

/-- A metadata row after the `filepath` assignment of src/wa_metadata.py
line 43: a Source Record plus the resolved (optional) file path. -/
structure MetaRow where
  id : List Char
  transect : List Char
  datafile : List Char
  epsg : List Char
  random : List Char
  geometry : Option (Int × Int)
  filepath : Option (List Char)
deriving DecidableEq

/-- A row of the flat CSV artifact (src/wa_metadata.py line 69): a MetaRow
with the geometry column removed. -/
structure CsvRow where
  id : List Char
  transect : List Char
  datafile : List Char
  epsg : List Char
  random : List Char
  filepath : Option (List Char)
deriving DecidableEq

/-- src/wa_metadata.py line 43:
`meta['filepath'] = meta['datafile'].apply(lambda x:
find_closest_match_datafile(x, basenames))`. -/
def assignFilepaths (recs : List SrcRecord) (basenames : List (List Char)) :
    List MetaRow :=
  recs.map (fun r =>
    { id := r.id, transect := r.transect, datafile := r.datafile,
      epsg := r.epsg, random := r.random, geometry := r.geometry,
      filepath := find_closest_match_datafile r.datafile basenames })

/-- src/wa_metadata.py line 47: `meta = meta[meta['filepath'].notnull()]`. -/
def filterMatched (rows : List MetaRow) : List MetaRow :=
  rows.filter (fun r => r.filepath.isSome)

/-- The Matched Metadata Table: filepath assignment followed by the
not-null filter (src/wa_metadata.py lines 43-50; the column projection of
line 50 keeps exactly the columns `MetaRow` models). -/
def metaTable (recs : List SrcRecord) (basenames : List (List Char)) :
    List MetaRow :=
  filterMatched (assignFilepaths recs basenames)

/-- src/wa_metadata.py line 63: `meta.to_crs(epsg=4326)`.  The coordinate
transformation itself is external; it is abstracted as a function applied to
each geometry, every other column untouched. -/
def to_crs (reproj : (Int × Int) → (Int × Int)) (rows : List MetaRow) :
    List MetaRow :=
  rows.map (fun r =>
    { id := r.id, transect := r.transect, datafile := r.datafile,
      epsg := r.epsg, random := r.random,
      geometry := r.geometry.map reproj, filepath := r.filepath })

/-- src/wa_metadata.py line 69: `meta.drop(columns=['geometry'])`. -/
def dropGeometry (r : MetaRow) : CsvRow :=
  { id := r.id, transect := r.transect, datafile := r.datafile,
    epsg := r.epsg, random := r.random, filepath := r.filepath }

/-- The rows persisted to the native-CRS GeoPackage
(src/wa_metadata.py line 59). -/
def artifactNative (recs : List SrcRecord) (basenames : List (List Char)) :
    List MetaRow :=
  metaTable recs basenames

/-- The rows persisted to the EPSG:4326 GeoPackage
(src/wa_metadata.py lines 63-65). -/
def artifact4326 (reproj : (Int × Int) → (Int × Int))
    (recs : List SrcRecord) (basenames : List (List Char)) : List MetaRow :=
  to_crs reproj (metaTable recs basenames)

/-- The rows persisted to the flat CSV (src/wa_metadata.py lines 69-71). -/
def artifactCsv (recs : List SrcRecord) (basenames : List (List Char)) :
    List CsvRow :=
  (metaTable recs basenames).map dropGeometry

/-- The loaded vector dataset before repair: whether a geometry column is
present, its rows, and its (optional) CRS. -/
structure GeoDataFrame where
  hasGeomCol : Bool
  rows : List SrcRecord
  crs : Option Nat
deriving DecidableEq

/-- src/wa_metadata.py lines 33-35: if the geometry column is absent or every
geometry is null, assign the placeholder `Point(0, 0)` to every row. -/
def repairGeometry (g : GeoDataFrame) : GeoDataFrame :=
  if (!g.hasGeomCol || g.rows.all (fun r => r.geometry.isNone)) = true then
    { hasGeomCol := true,
      rows := g.rows.map (fun r =>
        { id := r.id, transect := r.transect, datafile := r.datafile,
          epsg := r.epsg, random := r.random, geometry := some (0, 0) }),
      crs := g.crs }
  else g

/-- src/wa_metadata.py lines 38-40: if the dataset has no CRS, set EPSG:4326. -/
def repairCrs (g : GeoDataFrame) : GeoDataFrame :=
  match g.crs with
  | none => { hasGeomCol := g.hasGeomCol, rows := g.rows, crs := some 4326 }
  | some _ => g

/-- The two repairs in the order the script performs them
(src/wa_metadata.py lines 33-40). -/
def repairDataset (g : GeoDataFrame) : GeoDataFrame :=
  repairCrs (repairGeometry g)

/-! ## Raster Converter (src/wb_laz2tif.py) -/

/-- The decimal rendering of a Python `int` (used by the f-strings of
src/wb_laz2tif.py). -/
def intChars (i : Int) : List Char := (toString i).data

/-- The decimal rendering of a non-negative Python `int`. -/
def natChars (n : Nat) : List Char := (toString n).data

/-- The scan of `replaceAll`, structurally recursive on a fuel bound (each
step consumes at least one character, so `s.length` fuel always suffices). -/
def replaceAllFuel (pat rep : List Char) : Nat → List Char → List Char
  | 0, s => s
  | _ + 1, [] => []
  | fuel + 1, c :: rest =>
    if pat.isPrefixOf (c :: rest) = true ∧ pat ≠ [] then
      rep ++ replaceAllFuel pat rep fuel (rest.drop (pat.length - 1))
    else
      c :: replaceAllFuel pat rep fuel rest

/-- Embedding of Python `s.replace(pat, rep)` for a nonempty `pat`: replace
every non-overlapping occurrence, scanning left to right. -/
def replaceAll (pat rep s : List Char) : List Char :=
  replaceAllFuel pat rep s.length s

/-- One stage of the PDAL pipeline built by `laz_to_tif`
(src/wb_laz2tif.py lines 37-64). -/
inductive Stage where
  | reader (laz_fn : List Char)
  | filterExpression (expression : List Char)
  | filterAssign (assignment : List Char)
  | filterReprojection (out_srs : List Char)
  | filterSmrf
  | writerGdal (filename : List Char) (gdalopts : List Char) (nodata : Int)
      (output_type : List Char) (resolution : Nat) (window_size : Nat)
deriving DecidableEq

/-- The pipeline-construction part of `laz_to_tif`
(src/wb_laz2tif.py lines 37-64): the ordered stage list, paired with the
final output filename (after the `_yrclf`/`_nrclf` suffix replacement of
lines 41 and 47). -/
def buildPipeline (laz_fn tif_fn : List Char) (epsg_code : Int)
    (res window_size : Nat) (nodata : Int) (dtm reclassify : Bool) :
    List Stage × List Char :=
  let pipeline0 := [Stage.reader laz_fn]
  let pr :=
    if reclassify then
      (pipeline0 ++
        [Stage.filterExpression (chars "Classification != 7"),
         Stage.filterAssign (chars "Classification[:]=0"),
         Stage.filterReprojection (chars "EPSG:" ++ intChars epsg_code),
         Stage.filterSmrf],
       replaceAll (chars ".tif") (chars "_yrclf.tif") tif_fn)
    else
      (pipeline0 ++
        [Stage.filterReprojection (chars "EPSG:" ++ intChars epsg_code)],
       replaceAll (chars ".tif") (chars "_nrclf.tif") tif_fn)
  let pipeline1 :=
    if dtm then pr.1 ++ [Stage.filterExpression (chars "Classification == 2")]
    else pr.1
  (pipeline1 ++
    [Stage.writerGdal pr.2 (chars "tiled=yes,compress=deflate") nodata
      (chars "idw") res window_size],
   pr.2)

/-- The observable file-system and logging events of one `laz_to_tif` call. -/
inductive Event where
  | checkedExists (p : List Char)
  | readLaz (p : List Char)
  | wroteTif (p : List Char)
  | loggedError (m : List Char)
deriving DecidableEq

/-- The result of one `laz_to_tif` call: skipped because the output exists,
completed with the pipeline it executed, or an exception caught and logged. -/
inductive ConvOutcome where
  | skipped
  | completed (stages : List Stage) (out_fn : List Char)
  | errorLogged (msg : List Char)
deriving DecidableEq

/-- Oracle for the external operations inside `laz_to_tif` that may raise:
the `os.path.exists` check, the PDAL pipeline construction, and
`pipeline.execute()`.  A `some e` means that operation raises with message
`e`. -/
structure PdalEnv where
  existsErr : Option (List Char)
  buildErr : Option (List Char)
  execErr : Option (List Char)
deriving DecidableEq

/-- The body of the `try` block of `laz_to_tif` (src/wb_laz2tif.py
lines 27-76), over a file system `fs` (the list of existing paths): the
existence check, the early return when the output exists, the pipeline
construction, and the execution.  Raising is modelled with `Except.error`. -/
def laz_to_tif_body (env : PdalEnv) (fs : List (List Char))
    (laz_fn tif_fn : List Char) (epsg_code : Int) (res window_size : Nat)
    (nodata : Int) (dtm reclassify : Bool) :
    Except (List Char) (ConvOutcome × List Event) :=
  match env.existsErr with
  | some e => .error e
  | none =>
    if tif_fn ∈ fs then
      .ok (.skipped, [.checkedExists tif_fn])
    else
      match env.buildErr with
      | some e => .error e
      | none =>
        let p := buildPipeline laz_fn tif_fn epsg_code res window_size nodata
          dtm reclassify
        match env.execErr with
        | some e => .error e
        | none =>
          .ok (.completed p.1 p.2,
            [.checkedExists tif_fn, .readLaz laz_fn, .wroteTif p.2])

/-- The message printed by the `except` clause of `laz_to_tif`
(src/wb_laz2tif.py line 79). -/
def errorMessageFor (laz_fn e : List Char) : List Char :=
  chars "An error occurred during processing for " ++ laz_fn ++ chars ": " ++ e

/-- Embedding of `laz_to_tif` (src/wb_laz2tif.py lines 9-79): the whole body
runs inside `try`; any raise is caught and turned into a logged message, and
the function always returns. -/
def laz_to_tif (env : PdalEnv) (fs : List (List Char))
    (laz_fn tif_fn : List Char) (epsg_code : Int) (res window_size : Nat)
    (nodata : Int) (dtm reclassify : Bool) : ConvOutcome × List Event :=
  match laz_to_tif_body env fs laz_fn tif_fn epsg_code res window_size nodata
      dtm reclassify with
  | .ok r => r
  | .error e =>
    (.errorLogged (errorMessageFor laz_fn e),
     [.loggedError (errorMessageFor laz_fn e)])

/-- The file system after a list of events: a `wroteTif` adds the path. -/
def applyEvents (fs : List (List Char)) : List Event → List (List Char)
  | [] => fs
  | .wroteTif p :: rest => applyEvents (p :: fs) rest
  | _ :: rest => applyEvents fs rest

/-- One row of the metadata CSV the Raster Converter loads
(src/wb_laz2tif.py line 111), raw column values as strings. -/
structure CsvRecord where
  transect : List Char
  filepath : List Char
  epsg : List Char
deriving DecidableEq

/-- The integer value of a list of decimal digits. -/
def digitsVal (ds : List Char) : Int :=
  ds.foldl (fun acc c => acc * 10 + Int.ofNat (c.toNat - 48)) 0

/-- Embedding of Python `int(s)` on a string: an optional sign followed by a
nonempty run of decimal digits parses to its value, anything else raises
`ValueError` (embedded as `none`). -/
def pyInt (s : List Char) : Option Int :=
  match s with
  | [] => none
  | '-' :: ds =>
    if ds ≠ [] ∧ ds.all Char.isDigit = true then some (-(digitsVal ds))
    else none
  | '+' :: ds =>
    if ds ≠ [] ∧ ds.all Char.isDigit = true then some (digitsVal ds)
    else none
  | ds =>
    if ds.all Char.isDigit = true then some (digitsVal ds) else none

/-- Embedding of `get_params` (src/wb_laz2tif.py lines 82-86): extract
transect, filepath, and the `int()` of the epsg column for row `idx`.  It
runs outside any `try`, so a missing row or a non-numeric epsg raises
(`Except.error`). -/
def get_params (df : List CsvRecord) (idx : Nat) :
    Except (List Char) (List Char × List Char × Int) :=
  match df[idx]? with
  | none => .error (chars "KeyError")
  | some row =>
    match pyInt row.epsg with
    | none =>
      .error (chars "invalid literal for int() with base 10: " ++ row.epsg)
    | some e => .ok (row.transect, row.filepath, e)

/-- The output path pattern of `process_file` before the extension suffix
(src/wb_laz2tif.py lines 94-97): the per-transect output directory, then
`<basename-without-.laz>-<vname><res>m_<window_size>`. -/
def tifBaseName (las2tif_dpath dname laz_fn vname : List Char)
    (res window_size : Nat) : List Char :=
  las2tif_dpath ++ chars "/" ++ dname ++ chars "/" ++
    replaceAll (chars ".laz") [] (pyBasename laz_fn) ++ chars "-" ++ vname ++
    natChars res ++ chars "m_" ++ natChars window_size

/-- The `tif_fn` computed by `process_file` (src/wb_laz2tif.py line 97):
`os.path.join(outdpath, f"{bname}-{vname}{res}m_{window_size}.tif")`. -/
def process_file_tif_fn (las2tif_dpath dname laz_fn vname : List Char)
    (res window_size : Nat) : List Char :=
  tifBaseName las2tif_dpath dname laz_fn vname res window_size ++ chars ".tif"

/-- Oracle for the external operations of one worker job: the PDAL oracle for
`laz_to_tif`, plus whether `os.makedirs` raises. -/
structure WorkerEnv where
  pdal : PdalEnv
  mkdirsErr : Option (List Char)
deriving DecidableEq

/-- Embedding of `process_file` (src/wb_laz2tif.py lines 89-98): parameter
extraction and output-directory creation happen outside any exception
handler, so their raises propagate (`Except.error`); then `laz_to_tif` runs
and always returns. -/
def process_file (env : WorkerEnv) (fs : List (List Char))
    (df : List CsvRecord) (idx : Nat) (res window_size : Nat) (nodata : Int)
    (vname las2tif_dpath : List Char) (dtm reclassify : Bool) :
    Except (List Char) (ConvOutcome × List Event) :=
  match get_params df idx with
  | .error e => .error e
  | .ok (dname, laz_fn, epsg_code) =>
    match env.mkdirsErr with
    | some e => .error e
    | none =>
      .ok (laz_to_tif env.pdal fs laz_fn
        (process_file_tif_fn las2tif_dpath dname laz_fn vname res window_size)
        epsg_code res window_size nodata dtm reclassify)

/-- The message printed by the dispatch loop's `except` clause
(src/wb_laz2tif.py line 126). -/
def dispatchErrorMessage (e : List Char) : List Char :=
  chars "Error during parallel processing: " ++ e

/-- The dispatch loop of the `__main__` block (src/wb_laz2tif.py
lines 114-126): one job per row index; each future's result is retrieved,
an exception from it is caught and logged, and the loop continues.  The
entry for index `idx` is `some msg` when that job's exception was logged and
`none` when the job returned normally. -/
def dispatchLogs (env : WorkerEnv) (fs : List (List Char))
    (df : List CsvRecord) (res window_size : Nat) (nodata : Int)
    (vname las2tif_dpath : List Char) (dtm reclassify : Bool) :
    List (Option (List Char)) :=
  (List.range df.length).map (fun idx =>
    match process_file env fs df idx res window_size nodata vname
        las2tif_dpath dtm reclassify with
    | .error e => some (dispatchErrorMessage e)
    | .ok _ => none)

/-- A PDAL oracle in which no external operation raises. -/
def pdalOk : PdalEnv := ⟨none, none, none⟩

/-! ## Helper lemmas -/

theorem findFirstMatch_eq_some_iff (base : List Char) (bs : List (List Char))
    (fp : List Char) :
    findFirstMatch base bs = some fp ↔
      ∃ i : Nat, bs[i]? = some fp ∧ base <+: pyBasename fp ∧
        ∀ x ∈ bs.take i, ¬(base <+: pyBasename x) := by
  induction bs with
  | nil => simp [findFirstMatch]
  | cons b rest ih =>
    by_cases hb : base <+: pyBasename b
    · rw [show findFirstMatch base (b :: rest) = some b from by
        simp [findFirstMatch, hb]]
      constructor
      · intro h
        injection h with h
        subst h
        exact ⟨0, by simp, hb, by simp⟩
      · rintro ⟨i, hi, hfp, hall⟩
        cases i with
        | zero =>
          simp only [List.getElem?_cons_zero, Option.some.injEq] at hi
          subst hi
          rfl
        | succ k =>
          exact absurd hb (hall b (by simp [List.take_succ_cons]))
    · rw [show findFirstMatch base (b :: rest) = findFirstMatch base rest from by
        simp [findFirstMatch, hb]]
      rw [ih]
      constructor
      · rintro ⟨i, hi, hfp, hall⟩
        refine ⟨i + 1, by simpa using hi, hfp, ?_⟩
        intro x hx
        rw [List.take_succ_cons] at hx
        rcases List.mem_cons.mp hx with rfl | hx
        · exact hb
        · exact hall x hx
      · rintro ⟨i, hi, hfp, hall⟩
        cases i with
        | zero =>
          simp only [List.getElem?_cons_zero, Option.some.injEq] at hi
          subst hi
          exact absurd hfp hb
        | succ k =>
          refine ⟨k, by simpa using hi, hfp, fun x hx => hall x ?_⟩
          rw [List.take_succ_cons]
          exact List.mem_cons_of_mem _ hx

theorem findFirstMatch_eq_none_iff (base : List Char) (bs : List (List Char)) :
    findFirstMatch base bs = none ↔
      ∀ x ∈ bs, ¬(base <+: pyBasename x) := by
  induction bs with
  | nil => simp [findFirstMatch]
  | cons b rest ih =>
    by_cases hb : base <+: pyBasename b <;>
      simp [findFirstMatch, hb, ih]

theorem metaTable_length_add (recs : List SrcRecord) (bs : List (List Char)) :
    (metaTable recs bs).length +
      (recs.filter
        (fun r => (find_closest_match_datafile r.datafile bs).isNone)).length
      = recs.length := by
  induction recs with
  | nil => rfl
  | cons r rest ih =>
    simp only [metaTable, assignFilepaths, filterMatched, List.map_cons,
      List.filter_cons] at ih ⊢
    cases h : find_closest_match_datafile r.datafile bs <;>
      simp only [h, Option.isSome_none, Option.isNone_none, Option.isSome_some,
        Option.isNone_some, List.length_cons] <;>
      simp only [Bool.false_eq_true, if_false, if_true, List.length_cons] <;>
      omega

theorem replaceAllFuel_nil (pat rep : List Char) (fuel : Nat) :
    replaceAllFuel pat rep fuel [] = [] := by
  cases fuel <;> rfl

theorem replaceAllFuel_append (pat rep : List Char) (hp : pat ≠ [])
    (s : List Char) :
    ∀ fuel : Nat, (s ++ pat).length ≤ fuel →
      (∀ t ∈ s.tails, t ≠ [] → ¬(pat <+: t ++ pat)) →
      replaceAllFuel pat rep fuel (s ++ pat) = s ++ rep := by
  induction s with
  | nil =>
    intro fuel hf _
    match pat, hp with
    | c :: pr, _ =>
      match fuel, hf with
      | f + 1, _ =>
        show replaceAllFuel (c :: pr) rep (f + 1) (c :: pr) = rep
        rw [replaceAllFuel, if_pos ⟨by simp, by simp⟩]
        simp [replaceAllFuel_nil, List.drop_length]
  | cons a s' ih =>
    intro fuel hf h
    have hna : ¬(pat <+: a :: (s' ++ pat)) := by
      have := h (a :: s') (by simp [List.tails_cons]) (by simp)
      simpa using this
    match fuel, hf with
    | f + 1, hf =>
      show replaceAllFuel pat rep (f + 1) (a :: (s' ++ pat)) = a :: (s' ++ rep)
      rw [replaceAllFuel, if_neg (fun hc => hna (by simpa using hc.1))]
      refine congrArg (List.cons a) (ih f ?_ ?_)
      · simp only [List.length_append, List.length_cons] at hf ⊢
        omega
      · intro t ht hne
        exact h t (by rw [List.tails_cons]; exact List.mem_cons_of_mem _ ht) hne

theorem replaceAll_append (pat rep : List Char) (hp : pat ≠ [])
    (s : List Char)
    (h : ∀ t ∈ s.tails, t ≠ [] → ¬(pat <+: t ++ pat)) :
    replaceAll pat rep (s ++ pat) = s ++ rep :=
  replaceAllFuel_append pat rep hp s (s ++ pat).length le_rfl h

theorem repairCrs_rows (g : GeoDataFrame) : (repairCrs g).rows = g.rows := by
  cases h : g.crs <;> simp [repairCrs, h]

theorem repairGeometry_crs (g : GeoDataFrame) :
    (repairGeometry g).crs = g.crs := by
  unfold repairGeometry
  by_cases hc : (!g.hasGeomCol || g.rows.all fun r => r.geometry.isNone) = true <;>
    simp [hc]

theorem laz_to_tif_body_ok_shape (env : PdalEnv) (fs : List (List Char))
    (laz tif : List Char) (ec : Int) (res ws : Nat) (nd : Int)
    (dtm rcl : Bool) (r : ConvOutcome × List Event)
    (h : laz_to_tif_body env fs laz tif ec res ws nd dtm rcl = .ok r) :
    r = (ConvOutcome.skipped, [Event.checkedExists tif]) ∨
      ∃ st o ev, r = (ConvOutcome.completed st o, ev) := by
  unfold laz_to_tif_body at h
  cases he : env.existsErr with
  | some e => rw [he] at h; exact absurd h (by simp)
  | none =>
    rw [he] at h
    by_cases hm : tif ∈ fs
    · rw [if_pos hm] at h
      left
      injection h with h
      exact h.symm
    · rw [if_neg hm] at h
      cases hb : env.buildErr with
      | some e => rw [hb] at h; exact absurd h (by simp)
      | none =>
        rw [hb] at h
        cases hx : env.execErr with
        | some e => rw [hx] at h; exact absurd h (by simp)
        | none =>
          rw [hx] at h
          injection h with h
          exact Or.inr ⟨_, _, _, h.symm⟩

theorem get_params_congr (df df2 : List CsvRecord) (idx : Nat)
    (h : df[idx]? = df2[idx]?) : get_params df idx = get_params df2 idx := by
  unfold get_params
  rw [h]

theorem process_file_congr (env : WorkerEnv) (fs : List (List Char))
    (df df2 : List CsvRecord) (idx : Nat) (res ws : Nat) (nd : Int)
    (vname dpath : List Char) (dtm rcl : Bool) (h : df[idx]? = df2[idx]?) :
    process_file env fs df idx res ws nd vname dpath dtm rcl =
      process_file env fs df2 idx res ws nd vname dpath dtm rcl := by
  unfold process_file
  rw [get_params_congr df df2 idx h]

theorem dispatchLogs_getElem (env : WorkerEnv) (fs : List (List Char))
    (df : List CsvRecord) (res ws : Nat) (nd : Int)
    (vname dpath : List Char) (dtm rcl : Bool) (i : Nat) (hi : i < df.length) :
    (dispatchLogs env fs df res ws nd vname dpath dtm rcl)[i]? =
      some (match process_file env fs df i res ws nd vname dpath dtm rcl with
        | .error e => some (dispatchErrorMessage e)
        | .ok _ => none) := by
  unfold dispatchLogs
  rw [List.getElem?_map, List.getElem?_range hi]
  rfl

/-! ## Claims -/

/-- C1: the claim says that with the target output present `laz_to_tif`
returns without reading the input, so a second invocation on the same inputs
changes nothing and performs no second read.  The code violates this: the
existence check (line 29) tests the `tif_fn` argument, but the file actually
written carries the `_yrclf`/`_nrclf` suffix appended afterwards (lines 41,
47), so the completion marker never matches the produced file.  Concretely:
a first run on an empty file system completes and writes
`/o/A_dn_001-DTM30m_10_yrclf.tif`; a second run with exactly that output
present still reads the input again, is not skipped, and writes again. -/
theorem claim_C1_bug_demo :
    (laz_to_tif pdalOk [] (chars "/d/A_dn_001.laz")
        (chars "/o/A_dn_001-DTM30m_10.tif") 32633 30 10 (-9999) true true).1 ≠
      ConvOutcome.skipped
    ∧ chars "/o/A_dn_001-DTM30m_10_yrclf.tif" ∈
        applyEvents []
          (laz_to_tif pdalOk [] (chars "/d/A_dn_001.laz")
            (chars "/o/A_dn_001-DTM30m_10.tif") 32633 30 10 (-9999)
            true true).2
    ∧ Event.readLaz (chars "/d/A_dn_001.laz") ∈
        (laz_to_tif pdalOk
          (applyEvents []
            (laz_to_tif pdalOk [] (chars "/d/A_dn_001.laz")
              (chars "/o/A_dn_001-DTM30m_10.tif") 32633 30 10 (-9999)
              true true).2)
          (chars "/d/A_dn_001.laz") (chars "/o/A_dn_001-DTM30m_10.tif")
          32633 30 10 (-9999) true true).2
    ∧ (laz_to_tif pdalOk
          (applyEvents []
            (laz_to_tif pdalOk [] (chars "/d/A_dn_001.laz")
              (chars "/o/A_dn_001-DTM30m_10.tif") 32633 30 10 (-9999)
              true true).2)
          (chars "/d/A_dn_001.laz") (chars "/o/A_dn_001-DTM30m_10.tif")
          32633 30 10 (-9999) true true).1 ≠ ConvOutcome.skipped := by
  decide

/-- C2: for every record, the resolved filepath is the first discovered file,
in enumeration order, whose basename starts with the record's base (the part
of the datafile's basename before the first `_dn_`), and `none` exactly when
no discovered file's basename starts with that base. -/
theorem claim_C2_first_match (datafile : List Char) (bs : List (List Char)) :
    (∀ fp, find_closest_match_datafile datafile bs = some fp ↔
      ∃ i : Nat, bs[i]? = some fp ∧ matchBase datafile <+: pyBasename fp ∧
        ∀ x ∈ bs.take i, ¬(matchBase datafile <+: pyBasename x))
    ∧ (find_closest_match_datafile datafile bs = none ↔
      ∀ x ∈ bs, ¬(matchBase datafile <+: pyBasename x)) :=
  ⟨fun fp => findFirstMatch_eq_some_iff (matchBase datafile) bs fp,
   findFirstMatch_eq_none_iff (matchBase datafile) bs⟩

/-- C2 witness at the spec's own scenario: directory has `A_dn_001.laz` and
`B_dn_002.laz`; the record with datafile `A_dn_001_extra.ext` resolves to the
full path of `A_dn_001.laz`. -/
theorem claim_C2_witness :
    find_closest_match_datafile (chars "A_dn_001_extra.ext")
      [chars "/d/s/A_dn_001.laz", chars "/d/s/B_dn_002.laz"] =
      some (chars "/d/s/A_dn_001.laz") :=
  ((claim_C2_first_match (chars "A_dn_001_extra.ext")
      [chars "/d/s/A_dn_001.laz", chars "/d/s/B_dn_002.laz"]).1
    (chars "/d/s/A_dn_001.laz")).mpr
    ⟨0, by decide, by decide, by decide⟩

/-- C3: `laz_to_tif` always returns one of the three normal outcomes; when
any modelled exception is raised inside the `try` block (existence check,
pipeline construction, pipeline execution), it is caught and the logged
message contains the offending input path and the error detail. -/
theorem claim_C3_total (env : PdalEnv) (fs : List (List Char))
    (laz tif : List Char) (ec : Int) (res ws : Nat) (nd : Int)
    (dtm rcl : Bool) :
    (laz_to_tif env fs laz tif ec res ws nd dtm rcl).1 = ConvOutcome.skipped
    ∨ (∃ st o,
        (laz_to_tif env fs laz tif ec res ws nd dtm rcl).1 =
          ConvOutcome.completed st o)
    ∨ (∃ e, laz_to_tif_body env fs laz tif ec res ws nd dtm rcl =
          Except.error e
        ∧ (laz_to_tif env fs laz tif ec res ws nd dtm rcl).1 =
            ConvOutcome.errorLogged (errorMessageFor laz e)
        ∧ laz <:+: errorMessageFor laz e
        ∧ e <:+ errorMessageFor laz e) := by
  cases hb : laz_to_tif_body env fs laz tif ec res ws nd dtm rcl with
  | error e =>
    refine Or.inr (Or.inr ⟨e, rfl, by simp [laz_to_tif, hb], ?_, ?_⟩)
    · exact ⟨chars "An error occurred during processing for ",
        chars ": " ++ e, by simp [errorMessageFor]⟩
    · exact ⟨chars "An error occurred during processing for " ++ laz ++
        chars ": ", by simp [errorMessageFor, List.append_assoc]⟩
  | ok r =>
    rcases laz_to_tif_body_ok_shape env fs laz tif ec res ws nd dtm rcl r hb
      with h | ⟨st, o, ev, h⟩
    · exact Or.inl (by simp [laz_to_tif, hb, h])
    · exact Or.inr (Or.inl ⟨st, o, by simp [laz_to_tif, hb, h]⟩)

/-- C4: every row of the persisted Matched Metadata Table has a non-null
resolved filepath; unmatched records are dropped before any artifact is
written, so every persisted artifact's row count is the input record count
minus the unmatched count. -/
theorem claim_C4_filter_invariant (recs : List SrcRecord)
    (bs : List (List Char)) (reproj : (Int × Int) → (Int × Int)) :
    (∀ row ∈ metaTable recs bs, row.filepath.isSome = true)
    ∧ (metaTable recs bs).length =
        recs.length - (recs.filter (fun r =>
          (find_closest_match_datafile r.datafile bs).isNone)).length
    ∧ (artifactNative recs bs).length = (metaTable recs bs).length
    ∧ (artifact4326 reproj recs bs).length = (metaTable recs bs).length
    ∧ (artifactCsv recs bs).length = (metaTable recs bs).length := by
  refine ⟨?_, ?_, rfl, ?_, ?_⟩
  · intro row hrow
    simp only [metaTable, filterMatched] at hrow
    exact (List.mem_filter.mp hrow).2
  · have h := metaTable_length_add recs bs
    have h2 : (recs.filter (fun r =>
        (find_closest_match_datafile r.datafile bs).isNone)).length ≤
        recs.length := List.length_filter_le _ _
    omega
  · simp [artifact4326, to_crs]
  · simp [artifactCsv]

/-- C5: the filter chain built by `laz_to_tif`, for each combination of the
`reclassify` and `dtm` flags.  With reclassification: read, drop noise
(`Classification != 7`), assign the uniform class (`Classification[:]=0`),
reproject, SMRF ground filtering; without: read then reproject only.  With
`dtm = true` a final `Classification == 2` (ground only) filter is appended;
with `dtm = false` no classification filter is appended.  The GDAL writer is
always last. -/
theorem claim_C5_pipeline_order (laz tif : List Char) (ec : Int)
    (res ws : Nat) (nd : Int) :
    (buildPipeline laz tif ec res ws nd true true).1 =
      [Stage.reader laz,
       Stage.filterExpression (chars "Classification != 7"),
       Stage.filterAssign (chars "Classification[:]=0"),
       Stage.filterReprojection (chars "EPSG:" ++ intChars ec),
       Stage.filterSmrf,
       Stage.filterExpression (chars "Classification == 2"),
       Stage.writerGdal (replaceAll (chars ".tif") (chars "_yrclf.tif") tif)
         (chars "tiled=yes,compress=deflate") nd (chars "idw") res ws]
    ∧ (buildPipeline laz tif ec res ws nd true false).1 =
      [Stage.reader laz,
       Stage.filterReprojection (chars "EPSG:" ++ intChars ec),
       Stage.filterExpression (chars "Classification == 2"),
       Stage.writerGdal (replaceAll (chars ".tif") (chars "_nrclf.tif") tif)
         (chars "tiled=yes,compress=deflate") nd (chars "idw") res ws]
    ∧ (buildPipeline laz tif ec res ws nd false true).1 =
      [Stage.reader laz,
       Stage.filterExpression (chars "Classification != 7"),
       Stage.filterAssign (chars "Classification[:]=0"),
       Stage.filterReprojection (chars "EPSG:" ++ intChars ec),
       Stage.filterSmrf,
       Stage.writerGdal (replaceAll (chars ".tif") (chars "_yrclf.tif") tif)
         (chars "tiled=yes,compress=deflate") nd (chars "idw") res ws]
    ∧ (buildPipeline laz tif ec res ws nd false false).1 =
      [Stage.reader laz,
       Stage.filterReprojection (chars "EPSG:" ++ intChars ec),
       Stage.writerGdal (replaceAll (chars ".tif") (chars "_nrclf.tif") tif)
         (chars "tiled=yes,compress=deflate") nd (chars "idw") res ws] :=
  ⟨rfl, rfl, rfl, rfl⟩

/-- C6 counterexample: the claim says a job's exception is "logged by job
index".  The dispatch loop's handler (src/wb_laz2tif.py line 126) prints only
the error text: with two rows that both carry the non-numeric epsg value
`abc`, the distinct jobs 0 and 1 produce byte-identical log messages, so the
log cannot identify which job index failed. -/
theorem claim_C6_counterexample :
    dispatchLogs ⟨pdalOk, none⟩ []
      [⟨chars "t1", chars "/d/a.laz", chars "abc"⟩,
       ⟨chars "t2", chars "/d/b.laz", chars "abc"⟩]
      30 10 (-9999) (chars "DTM") (chars "/out") true true =
      [some (dispatchErrorMessage
          (chars "invalid literal for int() with base 10: abc")),
       some (dispatchErrorMessage
          (chars "invalid literal for int() with base 10: abc"))] := by
  decide

/-- C6 amended: an exception surfacing from a job is caught and one log entry
is recorded for it (the message holds the error text but not the job index);
a failing job does not halt or remove sibling jobs (the log has one entry per
submitted row, and a job's entry depends only on its own row); the driver
produces the complete per-job result list — one entry per submitted job —
before anything is reported. -/
theorem claim_C6_dispatch (env : WorkerEnv) (fs : List (List Char))
    (df df2 : List CsvRecord) (res ws : Nat) (nd : Int)
    (vname dpath : List Char) (dtm rcl : Bool) :
    (dispatchLogs env fs df res ws nd vname dpath dtm rcl).length = df.length
    ∧ (∀ i, i < df.length → ∀ e,
        process_file env fs df i res ws nd vname dpath dtm rcl =
          Except.error e →
        (dispatchLogs env fs df res ws nd vname dpath dtm rcl)[i]? =
          some (some (dispatchErrorMessage e)))
    ∧ (∀ i, i < df.length → ∀ r,
        process_file env fs df i res ws nd vname dpath dtm rcl =
          Except.ok r →
        (dispatchLogs env fs df res ws nd vname dpath dtm rcl)[i]? =
          some none)
    ∧ (∀ i, i < df.length → i < df2.length → df[i]? = df2[i]? →
        (dispatchLogs env fs df res ws nd vname dpath dtm rcl)[i]? =
          (dispatchLogs env fs df2 res ws nd vname dpath dtm rcl)[i]?) := by
  refine ⟨by simp [dispatchLogs], ?_, ?_, ?_⟩
  · intro i hi e he
    rw [dispatchLogs_getElem env fs df res ws nd vname dpath dtm rcl i hi, he]
  · intro i hi r hr
    rw [dispatchLogs_getElem env fs df res ws nd vname dpath dtm rcl i hi, hr]
  · intro i hi hi2 hrow
    rw [dispatchLogs_getElem env fs df res ws nd vname dpath dtm rcl i hi,
      dispatchLogs_getElem env fs df2 res ws nd vname dpath dtm rcl i hi2,
      process_file_congr env fs df df2 i res ws nd vname dpath dtm rcl hrow]

/-- C7: the output raster path is the per-transect directory joined with
`<input-basename-without-.laz>-<vname><res>m_<window_size>.tif`, whose
`.tif` is then replaced by `_yrclf.tif` when reclassification is enabled and
by `_nrclf.tif` otherwise; the GDAL writer stage writes exactly that final
path.  The hypothesis states that `.tif` does not already occur inside the
constructed base name (Python `str.replace` would rewrite such an interior
occurrence too). -/
theorem claim_C7_output_name (dpath dname laz vname : List Char)
    (res ws : Nat) (ec : Int) (nd : Int) (dtm : Bool)
    (h : ∀ t ∈ (tifBaseName dpath dname laz vname res ws).tails, t ≠ [] →
        ¬(chars ".tif" <+: t ++ chars ".tif")) :
    (buildPipeline laz (process_file_tif_fn dpath dname laz vname res ws) ec
        res ws nd dtm true).2 =
      tifBaseName dpath dname laz vname res ws ++ chars "_yrclf.tif"
    ∧ (buildPipeline laz (process_file_tif_fn dpath dname laz vname res ws) ec
        res ws nd dtm false).2 =
      tifBaseName dpath dname laz vname res ws ++ chars "_nrclf.tif"
    ∧ ∀ rcl : Bool,
        (buildPipeline laz (process_file_tif_fn dpath dname laz vname res ws)
            ec res ws nd dtm rcl).1.getLast? =
          some (Stage.writerGdal
            (buildPipeline laz (process_file_tif_fn dpath dname laz vname res
              ws) ec res ws nd dtm rcl).2
            (chars "tiled=yes,compress=deflate") nd (chars "idw") res ws) := by
  refine ⟨?_, ?_, ?_⟩
  · exact replaceAll_append (chars ".tif") (chars "_yrclf.tif") (by decide)
      (tifBaseName dpath dname laz vname res ws) h
  · exact replaceAll_append (chars ".tif") (chars "_nrclf.tif") (by decide)
      (tifBaseName dpath dname laz vname res ws) h
  · intro rcl
    exact List.getLast?_concat _

/-- C7 witness at a concrete job: transect `tr7`, input `/d/s/A_dn_001.laz`,
variant `DTM`, resolution 30, window 10. -/
theorem claim_C7_output_name_witness :
    (buildPipeline (chars "/d/s/A_dn_001.laz")
        (process_file_tif_fn (chars "/out") (chars "tr7")
          (chars "/d/s/A_dn_001.laz") (chars "DTM") 30 10)
        32633 30 10 (-9999) true true).2 =
      tifBaseName (chars "/out") (chars "tr7") (chars "/d/s/A_dn_001.laz")
        (chars "DTM") 30 10 ++ chars "_yrclf.tif" :=
  (claim_C7_output_name (chars "/out") (chars "tr7")
    (chars "/d/s/A_dn_001.laz") (chars "DTM") 30 10 32633 (-9999) true
    (by decide)).1

/-- C8: if the dataset has no geometry column or every geometry is null,
every row receives the same placeholder point `(0, 0)`; if the CRS is
undefined, EPSG:4326 is assigned; a dataset with a geometry column, at least
one non-null geometry, and a defined CRS passes through both repairs
unchanged. -/
theorem claim_C8_repair (g : GeoDataFrame) :
    ((g.hasGeomCol = false ∨ ∀ r ∈ g.rows, r.geometry = none) →
      ∀ r ∈ (repairDataset g).rows, r.geometry = some (0, 0))
    ∧ (g.crs = none → (repairDataset g).crs = some 4326)
    ∧ (g.hasGeomCol = true → (∃ r ∈ g.rows, r.geometry ≠ none) →
        g.crs ≠ none → repairDataset g = g) := by
  refine ⟨?_, ?_, ?_⟩
  · intro hcond r hr
    have hb : (!g.hasGeomCol || g.rows.all fun r => r.geometry.isNone)
        = true := by
      rcases hcond with h | h
      · simp [h]
      · refine Bool.or_eq_true .. |>.mpr (Or.inr ?_)
        rw [List.all_eq_true]
        intro x hx
        simp [h x hx]
    rw [show (repairDataset g).rows = (repairGeometry g).rows from
      repairCrs_rows _] at hr
    rw [repairGeometry, if_pos hb] at hr
    obtain ⟨x, _, rfl⟩ := List.mem_map.mp hr
    rfl
  · intro hcrs
    have h1 : (repairGeometry g).crs = none := by
      rw [repairGeometry_crs]
      exact hcrs
    show (repairCrs (repairGeometry g)).crs = some 4326
    simp [repairCrs, h1]
  · intro hg hex hcrs
    obtain ⟨r, hr, hgeom⟩ := hex
    have hall : (g.rows.all fun r => r.geometry.isNone) = false := by
      rw [Bool.eq_false_iff]
      intro hall
      have := List.all_eq_true.mp hall r hr
      cases hgr : r.geometry with
      | none => exact hgeom hgr
      | some v => rw [hgr] at this; exact absurd this (by simp)
    have hb : (!g.hasGeomCol || g.rows.all fun r => r.geometry.isNone)
        = false := by
      simp [hg, hall]
    have h1 : repairGeometry g = g := by
      rw [repairGeometry, if_neg (by simp [hb])]
    rw [repairDataset, h1]
    cases hc : g.crs with
    | none => exact absurd hc hcrs
    | some c => simp [repairCrs, hc]

/-- C8 witness: a dataset with no geometry column, one row, and no CRS gets
the placeholder geometry on its row and EPSG:4326 as CRS. -/
theorem claim_C8_repair_witness :
    (∀ r ∈ (repairDataset
        ⟨false, [⟨chars "1", chars "t", chars "d", chars "0", chars "r",
          none⟩], none⟩).rows, r.geometry = some (0, 0))
    ∧ (repairDataset
        ⟨false, [⟨chars "1", chars "t", chars "d", chars "0", chars "r",
          none⟩], none⟩).crs = some 4326 :=
  ⟨(claim_C8_repair ⟨false, [⟨chars "1", chars "t", chars "d", chars "0",
      chars "r", none⟩], none⟩).1 (Or.inl rfl),
   (claim_C8_repair ⟨false, [⟨chars "1", chars "t", chars "d", chars "0",
      chars "r", none⟩], none⟩).2.1 rfl⟩

/-- C9: the three persisted artifacts come from the same filtered row set:
dropping geometry from the reprojected artifact gives exactly the flat
table's rows, identifiers agree row by row, the lengths agree, and the
reprojected artifact differs from the native one only in the geometry
column. -/
theorem claim_C9_artifacts_agree (recs : List SrcRecord)
    (bs : List (List Char)) (reproj : (Int × Int) → (Int × Int)) :
    (artifact4326 reproj recs bs).map dropGeometry =
      (artifactNative recs bs).map dropGeometry
    ∧ artifactCsv recs bs = (artifactNative recs bs).map dropGeometry
    ∧ (artifact4326 reproj recs bs).map (fun r => r.id) =
        (artifactNative recs bs).map (fun r => r.id)
    ∧ (artifact4326 reproj recs bs).length = (artifactNative recs bs).length
    ∧ artifact4326 reproj recs bs = (artifactNative recs bs).map
        (fun r =>
          { id := r.id, transect := r.transect, datafile := r.datafile,
            epsg := r.epsg, random := r.random,
            geometry := r.geometry.map reproj, filepath := r.filepath }) := by
  refine ⟨?_, rfl, ?_, ?_, rfl⟩
  · rw [artifact4326, artifactNative, to_crs, List.map_map]
    rfl
  · rw [artifact4326, artifactNative, to_crs, List.map_map]
    rfl
  · simp [artifact4326, to_crs, artifactNative]

/-- C10: `get_params` and the directory creation of `process_file` run
outside any exception handler: a row whose epsg field does not parse as an
integer makes `process_file` raise (return `Except.error`), as does a failing
`os.makedirs`; and such an error reaches the dispatch layer, which logs it
there — in contrast to exceptions inside `laz_to_tif`, which are handled
within the job. -/
theorem claim_C10_unprotected (env : WorkerEnv) (fs : List (List Char))
    (df : List CsvRecord) (idx : Nat) (res ws : Nat) (nd : Int)
    (vname dpath : List Char) (dtm rcl : Bool) :
    (∀ row, df[idx]? = some row → pyInt row.epsg = none →
      process_file env fs df idx res ws nd vname dpath dtm rcl =
        Except.error
          (chars "invalid literal for int() with base 10: " ++ row.epsg))
    ∧ (∀ row v e, df[idx]? = some row → pyInt row.epsg = some v →
        env.mkdirsErr = some e →
        process_file env fs df idx res ws nd vname dpath dtm rcl =
          Except.error e)
    ∧ (∀ e, idx < df.length →
        process_file env fs df idx res ws nd vname dpath dtm rcl =
          Except.error e →
        (dispatchLogs env fs df res ws nd vname dpath dtm rcl)[idx]? =
          some (some (dispatchErrorMessage e))) := by
  refine ⟨?_, ?_, ?_⟩
  · intro row hrow hint
    simp [process_file, get_params, hrow, hint]
  · intro row v e hrow hint hmk
    simp [process_file, get_params, hrow, hint, hmk]
  · intro e hidx herr
    rw [dispatchLogs_getElem env fs df res ws nd vname dpath dtm rcl idx hidx,
      herr]

/-- C10 witness: a single-row table with epsg `abc` makes `process_file`
raise and the dispatcher log the propagated error at index 0. -/
theorem claim_C10_unprotected_witness :
    process_file ⟨pdalOk, none⟩ []
        [⟨chars "t1", chars "/d/a.laz", chars "abc"⟩] 0 30 10 (-9999)
        (chars "DTM") (chars "/out") true true =
      Except.error
        (chars "invalid literal for int() with base 10: " ++ chars "abc") :=
  (claim_C10_unprotected ⟨pdalOk, none⟩ []
      [⟨chars "t1", chars "/d/a.laz", chars "abc"⟩] 0 30 10 (-9999)
      (chars "DTM") (chars "/out") true true).1
    ⟨chars "t1", chars "/d/a.laz", chars "abc"⟩ rfl (by decide)
